import Mathlib

/-!
Shallow embedding of `corporate/views/upgrade.py` (the upgrade / sponsorship
views of the billing web layer) and proofs about its behaviour.

Modelling conventions:
* The external billing back-end (`RealmBillingSession.do_upgrade`) is a
  function parameter, so "the back-end is never invoked" is expressed as
  independence of the result from that parameter.
* Database state touched by the sponsorship workflow is an explicit record
  (`BillingState`); Django's `transaction.atomic` is modelled by restoring
  the entry state whenever a step inside the block raises.
* Logging is modelled as a list of structured log entries returned next to
  the response.
-/

set_option autoImplicit false

namespace UpgradeViews

/-- Modelled from the spec: the fixed enumeration of billing modalities
(`charge_automatically`, `send_invoice`); the constant
`VALID_BILLING_MODALITY_VALUES` lives in `corporate.lib.stripe`, outside the
given source file. -/
def VALID_BILLING_MODALITY_VALUES : List String :=
  ["charge_automatically", "send_invoice"]

/-- Modelled from the spec: the fixed enumeration of billing schedules
(`monthly`, `annual`); the constant `VALID_BILLING_SCHEDULE_VALUES` lives in
`corporate.lib.stripe`, outside the given source file. -/
def VALID_BILLING_SCHEDULE_VALUES : List String :=
  ["annual", "monthly"]

/-- Modelled from the spec: the fixed enumeration of license-management
modes (`automatic`, `manual`); the constant `VALID_LICENSE_MANAGEMENT_VALUES`
lives in `corporate.lib.stripe`, outside the given source file. -/
def VALID_LICENSE_MANAGEMENT_VALUES : List String :=
  ["automatic", "manual"]

/-- Modelled from the spec: `check_string_in(possible_values)` from
`zerver.lib.validator` accepts exactly the strings in the given
enumeration. -/
def check_string_in (possible_values : List String) (x : String) : Bool :=
  possible_values.contains x

/-- Modelled from the spec: the fixed support-contact template
(`BillingError.CONTACT_SUPPORT` in `corporate.lib.stripe`, outside the given
source file), formatted with the administrator address. -/
def CONTACT_SUPPORT (email : String) : String :=
  "Something went wrong. Please contact " ++ email ++ "."

/-- The fields of the requesting user that the `upgrade` view reads. -/
structure UpgradeUser where
  id : Nat
  realm_id : Nat
  realm_string_id : String
deriving DecidableEq, Repr

/-- The request parameters of the `upgrade` view, after the boolean/integer
coercions of the decorator layer but before the enumeration checks. -/
structure UpgradeParams where
  billing_modality : String
  schedule : String
  signed_seat_count : String
  salt : String
  onboarding : Bool
  license_management : Option String
  licenses : Option Int
deriving DecidableEq, Repr

/-- `UpgradeRequest`: the upgrade intent handed to the billing back-end. -/
structure UpgradeRequest where
  billing_modality : String
  schedule : String
  signed_seat_count : String
  salt : String
  onboarding : Bool
  license_management : Option String
  licenses : Option Int
deriving DecidableEq, Repr

/-- The possible outcomes of the external back-end call
`billing_session.do_upgrade(upgrade_request)`: a structured success payload,
a raised `BillingError` (carrying `error_description` and `message`), or any
other raised exception (carrying its detail text). -/
inductive BackendOutcome (α : Type) where
  | success (data : α)
  | billingError (error_description : String) (message : String)
  | otherException (detail : String)
deriving DecidableEq, Repr

/-- The observable outcome of the `upgrade` view: a JSON success envelope,
a parameter-validation rejection by the decorator layer (naming the
offending variable), or a raised `BillingError`. -/
inductive UpgradeResult (α : Type) where
  | jsonSuccess (data : α)
  | paramValidationError (var_name : String)
  | billingError (error_description : String) (message : String)
deriving DecidableEq, Repr

/-- Structured log entries emitted by the `upgrade` view. -/
inductive LogEntry where
  | warning (error_description : String) (user_id : Nat) (realm_id : Nat)
      (realm_string_id : String) (billing_modality : String) (schedule : String)
      (license_management : Option String) (licenses : Option Int)
  | exceptionWithTrace (text : String) (detail : String) (stack_info : Bool)
deriving DecidableEq, Repr

/-- `license_management` is optional; when supplied it must be in the fixed
enumeration (decorator `str_validator=check_string_in(...)`). -/
def licenseManagementInvalid (lm : Option String) : Bool :=
  match lm with
  | some v => ! check_string_in VALID_LICENSE_MANAGEMENT_VALUES v
  | none => false

/-- Construction of the `UpgradeRequest` from the validated parameters
(lines 58-66 of the source). -/
def mkUpgradeRequest (p : UpgradeParams) : UpgradeRequest :=
  { billing_modality := p.billing_modality
    schedule := p.schedule
    signed_seat_count := p.signed_seat_count
    salt := p.salt
    onboarding := p.onboarding
    license_management := p.license_management
    licenses := p.licenses }

/-- The `upgrade` view. The decorator layer first checks the enumerated
string parameters; the handler body then builds the `UpgradeRequest`,
delegates to the back-end (`do_upgrade`), wraps success in a JSON envelope,
logs and re-raises `BillingError`, and converts any other exception into the
generic contact-support `BillingError`. -/
def upgrade {α : Type} (user : UpgradeUser) (p : UpgradeParams)
    (settings_admin : String) (do_upgrade : UpgradeRequest → BackendOutcome α) :
    UpgradeResult α × List LogEntry :=
  if ! check_string_in VALID_BILLING_MODALITY_VALUES p.billing_modality then
    (.paramValidationError "billing_modality", [])
  else if ! check_string_in VALID_BILLING_SCHEDULE_VALUES p.schedule then
    (.paramValidationError "schedule", [])
  else if licenseManagementInvalid p.license_management then
    (.paramValidationError "license_management", [])
  else
    match do_upgrade (mkUpgradeRequest p) with
    | .success data => (.jsonSuccess data, [])
    | .billingError error_description message =>
        (.billingError error_description message,
         [.warning error_description user.id user.realm_id user.realm_string_id
            p.billing_modality p.schedule p.license_management p.licenses])
    | .otherException detail =>
        (.billingError "uncaught exception during upgrade"
           (CONTACT_SUPPORT settings_admin),
         [.exceptionWithTrace "Uncaught exception in billing:" detail true])

/-- The customer fields the `initial_upgrade` branch logic reads:
`sponsorship_pending`, and whether `get_current_plan_by_customer` finds an
active plan (the latter is an external query, modelled as a field). -/
structure Customer where
  sponsorship_pending : Bool
  has_current_plan : Bool
deriving DecidableEq, Repr, Fintype

/-- The inputs that the branch logic of `initial_upgrade` (lines 101-114)
reads: the global billing flag, the user's guest flag, the realm's customer
record (if any), whether the realm is on the free-standard plan, and the
onboarding flag. -/
structure InitialUpgradeInput where
  billing_enabled : Bool
  is_guest : Bool
  customer : Option Customer
  plan_type_is_standard_free : Bool
  onboarding : Bool
deriving DecidableEq, Repr, Fintype

/-- The observable outcome of `initial_upgrade`: 404, redirect to the
sponsorship-request page, redirect to the billing home page (possibly with
the onboarding query flag), or rendering the upgrade page (context
abstracted: the claims are about branch selection only). -/
inductive InitialUpgradeResponse where
  | notFound
  | redirectSponsorshipRequest
  | redirectBillingHome (onboarding_query : Bool)
  | renderUpgradePage
deriving DecidableEq, Repr

/-- `customer is not None and customer.sponsorship_pending`. -/
def customerSponsorshipPending : Option Customer → Bool
  | some c => c.sponsorship_pending
  | none => false

/-- `get_current_plan_by_customer(customer) is not None` on an optional
customer. -/
def customerHasCurrentPlan : Option Customer → Bool
  | some c => c.has_current_plan
  | none => false

/-- The branch logic of the `initial_upgrade` view (lines 101-114 of the
source). -/
def initial_upgrade (i : InitialUpgradeInput) : InitialUpgradeResponse :=
  if ! i.billing_enabled || i.is_guest then
    .notFound
  else if customerSponsorshipPending i.customer || i.plan_type_is_standard_free then
    .redirectSponsorshipRequest
  else if i.customer.isSome && (customerHasCurrentPlan i.customer || i.onboarding) then
    .redirectBillingHome i.onboarding
  else
    .renderUpgradePage

/-- The behaviour of `initial_upgrade` as the claim words it: 404 exactly
when billing is globally disabled; sponsorship redirect when sponsorship is
pending or the plan is free-standard; billing-home redirect whenever an
active plan exists or the onboarding flag is set; otherwise render. -/
def initial_upgrade_claimed (i : InitialUpgradeInput) : InitialUpgradeResponse :=
  if ! i.billing_enabled then
    .notFound
  else if customerSponsorshipPending i.customer || i.plan_type_is_standard_free then
    .redirectSponsorshipRequest
  else if customerHasCurrentPlan i.customer || i.onboarding then
    .redirectBillingHome i.onboarding
  else
    .renderUpgradePage

/-- The claim as amended: 404 when billing is disabled or the user is a
guest; sponsorship redirect when sponsorship is pending or the plan is
free-standard; billing-home redirect when a customer record exists and an
active plan exists or the onboarding flag is set; otherwise render. -/
def initial_upgrade_amended (i : InitialUpgradeInput) : InitialUpgradeResponse :=
  if ! i.billing_enabled || i.is_guest then
    .notFound
  else if customerSponsorshipPending i.customer || i.plan_type_is_standard_free then
    .redirectSponsorshipRequest
  else if i.customer.isSome && (customerHasCurrentPlan i.customer || i.onboarding) then
    .redirectBillingHome i.onboarding
  else
    .renderUpgradePage

/-- Python/Django string stripping: remove leading and trailing whitespace
(Django `CharField` has `strip=True` by default, so cleaned text values are
the stripped submissions). -/
def pyStrip (s : String) : String :=
  ⟨((s.data.dropWhile Char.isWhitespace).reverse.dropWhile Char.isWhitespace).reverse⟩

/-- Decimal digit run to a natural number. -/
def digitsVal (l : List Char) : Nat :=
  l.foldl (fun acc c => acc * 10 + (c.toNat - 48)) 0

/-- Integer parsing as Django's `IntegerField.to_python` does it (an
optional sign followed by decimal digits, after stripping). -/
def parseIntModel (s : String) : Option Int :=
  match (pyStrip s).data with
  | [] => none
  | '-' :: rest =>
      if rest ≠ [] ∧ rest.all Char.isDigit then some (-(digitsVal rest : Int)) else none
  | '+' :: rest =>
      if rest ≠ [] ∧ rest.all Char.isDigit then some ((digitsVal rest : Int)) else none
  | l =>
      if l.all Char.isDigit then some ((digitsVal l : Int)) else none

/-- Boolean prefix test on character lists. -/
def charsPrefixOf : List Char → List Char → Bool
  | [], _ => true
  | _ :: _, [] => false
  | a :: as, b :: bs => a = b && charsPrefixOf as bs

/-- Boolean contiguous-sublist test on character lists (needle, then
haystack). -/
def charsContains (needle : List Char) : List Char → Bool
  | [] => needle.isEmpty
  | c :: rest => charsPrefixOf needle (c :: rest) || charsContains needle rest

/-- Boolean suffix test on character lists (needle, then haystack). -/
def charsSuffixOf (needle haystack : List Char) : Bool :=
  charsPrefixOf needle.reverse haystack.reverse

/-- Substring test on the underlying character lists. -/
def strContains (haystack needle : String) : Bool :=
  charsContains needle.data haystack.data

/-- Modelled from the spec: `ZulipSponsorshipRequest.MAX_ORG_URL_LENGTH`
(the bounded maximum length of the website field; the constant lives in
`corporate.models`, outside the given source file). -/
def MAX_ORG_URL_LENGTH : Nat := 175

/-- Modelled from the spec: the form library's URL well-formedness check
(the website must be "a well-formed URL"), abstracted as: nonempty, no
space characters, and a nonempty part after the scheme separator. -/
def isWellFormedURL (s : String) : Bool :=
  match s.data with
  | [] => false
  | l => ! l.contains ' ' && strContains s "://" && ! charsSuffixOf "://".data l

/-- Django `URLField.to_python`: strip, and prepend an `http` scheme when no
scheme separator is present. -/
def websiteCleaned (raw : String) : String :=
  let s := pyStrip raw
  if s.data = [] then s
  else if strContains s "://" then s
  else "http://" ++ s

/-- Error messages of the `website` field (`URLField`, `required=False`,
`max_length=MAX_ORG_URL_LENGTH`): empty input is accepted, otherwise the
cleaned value must be within the length bound and a well-formed URL. -/
def websiteFieldErrors (raw : String) : List String :=
  let s := pyStrip raw
  if s.data = [] then []
  else
    let cleaned := websiteCleaned raw
    if MAX_ORG_URL_LENGTH < cleaned.data.length then
      ["Ensure this value has at most " ++ toString MAX_ORG_URL_LENGTH ++
        " characters (it has " ++ toString cleaned.data.length ++ ")."]
    else if ! isWellFormedURL cleaned then ["Enter a valid URL."]
    else []

/-- Error messages of a required `CharField`: the stripped value must be
nonempty. -/
def requiredCharFieldErrors (raw : String) : List String :=
  if (pyStrip raw).data = [] then ["This field is required."] else []

/-- Error messages of the required `IntegerField`: nonempty after stripping
and parseable as a whole number. -/
def integerFieldErrors (raw : String) : List String :=
  if (pyStrip raw).data = [] then ["This field is required."]
  else
    match parseIntModel raw with
    | some _ => []
    | none => ["Enter a whole number."]

/-- The raw values bound to the six fields of `SponsorshipRequestForm`
(at the only call site every field key is present in the posted data, so
the bound values are plain strings). -/
structure SponsorshipFormInput where
  website : String
  organization_type : String
  description : String
  expected_total_users : String
  paid_users_count : String
  paid_users_description : String
deriving DecidableEq, Repr

/-- `SponsorshipRequestForm` validation: the per-field error messages, in
the form's field declaration order (`website`, `organization_type`,
`description`, `expected_total_users`, `paid_users_count`,
`paid_users_description`); the last field is optional text and never
errs. -/
def formErrorMessages (f : SponsorshipFormInput) : List String :=
  websiteFieldErrors f.website ++
  integerFieldErrors f.organization_type ++
  requiredCharFieldErrors f.description ++
  requiredCharFieldErrors f.expected_total_users ++
  requiredCharFieldErrors f.paid_users_count

/-- The cleaned data of a valid `SponsorshipRequestForm` (text fields
stripped, the organization type parsed to an integer, the website
scheme-normalised). -/
structure SponsorshipCleanedData where
  website : String
  organization_type : Int
  description : String
  expected_total_users : String
  paid_users_count : String
  paid_users_description : String
deriving DecidableEq, Repr

/-- `form.cleaned_data` (only consulted when the form is valid, where the
integer parse succeeds; the `getD` default is never reached there). -/
def formCleanedData (f : SponsorshipFormInput) : SponsorshipCleanedData :=
  { website := websiteCleaned f.website
    organization_type := (parseIntModel f.organization_type).getD 0
    description := pyStrip f.description
    expected_total_users := pyStrip f.expected_total_users
    paid_users_count := pyStrip f.paid_users_count
    paid_users_description := pyStrip f.paid_users_description }

/-- Python's `" ".join`: the space-separated concatenation used to combine
the per-field error messages. -/
def joinSpace : List String → String
  | [] => ""
  | [m] => m
  | m :: rest => m ++ " " ++ joinSpace rest

/-- Lookup of a posted field by key (first binding wins). -/
def lookupPost (post : List (String × String)) (key : String) : Option String :=
  (post.find? (fun kv => kv.1 = key)).map (fun kv => kv.2)

/-- Modelled from the spec: the decorator-based parameter-extraction gate
(`has_request_variables` with `REQ()` from `zerver.lib.request`, outside the
given source file): a parameter declared without a default must be present
in the posted data, otherwise the request fails with a missing-parameter
error naming the variable. -/
def extractRequired (post : List (String × String)) (var_name : String) :
    Except String String :=
  match lookupPost post var_name with
  | some v => .ok v
  | none => .error var_name

/-- The six request variables of the `sponsorship` view, extracted in
signature order; all are declared `REQ()` with no default. -/
def extractSponsorshipParams (post : List (String × String)) :
    Except String (String × String × String × String × String × String) := do
  let organization_type ← extractRequired post "organization-type"
  let website ← extractRequired post "website"
  let description ← extractRequired post "description"
  let expected_total_users ← extractRequired post "expected_total_users"
  let paid_users_count ← extractRequired post "paid_users_count"
  let paid_users_description ← extractRequired post "paid_users_description"
  pure (organization_type, website, description, expected_total_users,
    paid_users_count, paid_users_description)

/-- Modelled from the spec: the support address constant
(`FromAddress.SUPPORT` in `zerver.lib.send_email`, outside the given source
file). -/
def FromAddress_SUPPORT : String := "support-address"

/-- Modelled from the spec: the tokenized no-reply sender address
(`FromAddress.tokenized_no_reply_address()` in `zerver.lib.send_email`,
outside the given source file). -/
def FromAddress_tokenized_no_reply : String := "tokenized-no-reply-address"

/-- Modelled from the spec: `get_support_url(realm)` from
`corporate.lib.support` (outside the given source file), a URL derived from
the realm identifier. -/
def get_support_url (realm_string_id : String) : String :=
  "support-url/" ++ realm_string_id

/-- Modelled from the spec: `get_org_type_display_name` from `zerver.models`
(outside the given source file) resolves the human-readable display name of
an organization type. -/
def get_org_type_display_name (org_type : Int) : String :=
  "org-type-display-" ++ toString org_type

/-- The fields of the requesting user that the `sponsorship` view reads. -/
structure SponsorshipUser where
  full_name : String
  role_name : String
  delivery_email : String
deriving DecidableEq, Repr

/-- The realm fields the `sponsorship` view reads outside the mutable
state. -/
structure Realm where
  string_id : String
deriving DecidableEq, Repr

/-- A persisted `ZulipSponsorshipRequest` row (references modelled by the
realm identifier and the requesting user's name). -/
structure ZulipSponsorshipRequest where
  realm_string_id : String
  requested_by : String
  org_website : String
  org_description : String
  org_type : Int
  expected_total_users : String
  paid_users_count : String
  paid_users_description : String
deriving DecidableEq, Repr

/-- The template context of the sponsorship notification email (lines
212-223 of the source). -/
structure EmailContext where
  requested_by : String
  user_role : String
  string_id : String
  support_url : String
  organization_type : String
  website : String
  description : String
  expected_total_users : String
  paid_users_count : String
  paid_users_description : String
deriving DecidableEq, Repr

/-- An outbound email as handed to `send_email`. -/
structure EmailMessage where
  template : String
  to_emails : List String
  from_name : String
  from_address : String
  reply_to_email : String
  context : EmailContext
deriving DecidableEq, Repr

/-- The durable state the sponsorship workflow can touch: the realm's
`org_type` column together with write markers for it (`realm_org_type_saves`
counts targeted `save(update_fields=["org_type"])` writes,
`realm_full_saves` counts full-record realm writes — the view performs
none), the `ZulipSponsorshipRequest` table, the customer's
sponsorship-pending flag, the requester's billing-administrator capability,
and the outbox of sent emails. -/
structure BillingState where
  realm_org_type : Int
  realm_org_type_saves : Nat
  realm_full_saves : Nat
  sponsorship_rows : List ZulipSponsorshipRequest
  sponsorship_pending : Bool
  user_is_billing_admin : Bool
  emails : List EmailMessage
deriving DecidableEq, Repr

/-- Failure injection for the four fallible steps inside the atomic block:
saving the `ZulipSponsorshipRequest` row, the targeted realm save, marking
the customer sponsorship-pending, and granting the billing-administrator
capability. -/
structure FailSpec where
  row_save_fails : Bool
  realm_save_fails : Bool
  mark_pending_fails : Bool
  grant_fails : Bool
deriving DecidableEq, Repr

/-- No step is made to fail. -/
def noFailure : FailSpec :=
  { row_save_fails := false
    realm_save_fails := false
    mark_pending_fails := false
    grant_fails := false }

/-- The body of the `transaction.atomic()` block (lines 189-210 of the
source): create and save the sponsorship row, update and persist
`realm.org_type` only when it differs (a targeted
`save(update_fields=["org_type"])`), mark the customer sponsorship-pending,
grant the requester the billing-administrator capability, and resolve the
display name. A `throw` models an exception raised by the corresponding
step. -/
def sponsorshipTransactionBody (fs : FailSpec) (realm : Realm)
    (user : SponsorshipUser) (cleaned : SponsorshipCleanedData)
    (st : BillingState) : Except Unit (BillingState × String) :=
  if fs.row_save_fails then .error () else
  let row : ZulipSponsorshipRequest :=
    { realm_string_id := realm.string_id
      requested_by := user.full_name
      org_website := cleaned.website
      org_description := cleaned.description
      org_type := cleaned.organization_type
      expected_total_users := cleaned.expected_total_users
      paid_users_count := cleaned.paid_users_count
      paid_users_description := cleaned.paid_users_description }
  let st1 := { st with sponsorship_rows := st.sponsorship_rows ++ [row] }
  if (st1.realm_org_type != cleaned.organization_type) && fs.realm_save_fails then .error () else
  let st2 :=
    if st1.realm_org_type != cleaned.organization_type then
      { st1 with
        realm_org_type := cleaned.organization_type
        realm_org_type_saves := st1.realm_org_type_saves + 1 }
    else st1
  if fs.mark_pending_fails then .error () else
  let st3 := { st2 with sponsorship_pending := true }
  if fs.grant_fails then .error () else
  let st4 := { st3 with user_is_billing_admin := true }
  .ok (st4, get_org_type_display_name cleaned.organization_type)

/-- The observable outcome of the `sponsorship` view: a JSON success
envelope, a missing-parameter rejection by the decorator layer, a raised
`BillingError`, or an uncaught exception propagating out of the atomic
block (the transaction having been rolled back). -/
inductive SponsorshipResult where
  | jsonSuccess
  | missingParam (var_name : String)
  | billingError (error_description : String) (message : String)
  | internalException
deriving DecidableEq, Repr

/-- The `sponsorship` view (lines 164-240 of the source). Parameter
extraction, form binding and validation; on a valid form the atomic block
runs (any step failure rolls every write back and the exception
propagates), then the notification email is sent outside the atomic
boundary; on an invalid form all per-field complaints are joined into one
message raised as a `BillingError` labelled "Form validation error". -/
def sponsorship (fs : FailSpec) (realm : Realm) (user : SponsorshipUser)
    (post : List (String × String)) (st : BillingState) :
    SponsorshipResult × BillingState :=
  match extractSponsorshipParams post with
  | .error var_name => (.missingParam var_name, st)
  | .ok (organization_type, website, description, expected_total_users,
      paid_users_count, paid_users_description) =>
    let requested_by := user.full_name
    let user_role := user.role_name
    let support_url := get_support_url realm.string_id
    let form : SponsorshipFormInput :=
      { website := website
        organization_type := organization_type
        description := description
        expected_total_users := expected_total_users
        paid_users_count := paid_users_count
        paid_users_description := paid_users_description }
    if (formErrorMessages form).isEmpty then
      match sponsorshipTransactionBody fs realm user (formCleanedData form) st with
      | .error _ => (.internalException, st)
      | .ok (st', org_type_display_name) =>
        let context : EmailContext :=
          { requested_by := requested_by
            user_role := user_role
            string_id := realm.string_id
            support_url := support_url
            organization_type := org_type_display_name
            website := website
            description := description
            expected_total_users := expected_total_users
            paid_users_count := paid_users_count
            paid_users_description := paid_users_description }
        let email : EmailMessage :=
          { template := "zerver/emails/sponsorship_request"
            to_emails := [FromAddress_SUPPORT]
            from_name := "Zulip sponsorship"
            from_address := FromAddress_tokenized_no_reply
            reply_to_email := user.delivery_email
            context := context }
        (.jsonSuccess, { st' with emails := st'.emails ++ [email] })
    else
      (.billingError "Form validation error" (joinSpace (formErrorMessages form)), st)

/-! Concrete fixtures used by the witness theorems. -/

def fixtureRealm : Realm := { string_id := "zulip-org" }

def fixtureUser : SponsorshipUser :=
  { full_name := "Jane Doe"
    role_name := "Organization owner"
    delivery_email := "jane@example.com" }

def fixtureState : BillingState :=
  { realm_org_type := 35
    realm_org_type_saves := 0
    realm_full_saves := 0
    sponsorship_rows := []
    sponsorship_pending := false
    user_is_billing_admin := false
    emails := [] }

def fixturePostValid : List (String × String) :=
  [("organization-type", "20"), ("website", "https://example.org"),
   ("description", " An open community "), ("expected_total_users", "50"),
   ("paid_users_count", "3"), ("paid_users_description", "")]

def fixturePostSameOrgType : List (String × String) :=
  [("organization-type", "35"), ("website", "https://example.org"),
   ("description", "An open community"), ("expected_total_users", "50"),
   ("paid_users_count", "3"), ("paid_users_description", "")]

def fixturePostInvalid : List (String × String) :=
  [("organization-type", "abc"), ("website", ""), ("description", "   "),
   ("expected_total_users", "50"), ("paid_users_count", "3"),
   ("paid_users_description", "")]

def fixturePostMissingWebsite : List (String × String) :=
  [("organization-type", "20"), ("description", "An open community"),
   ("expected_total_users", "50"), ("paid_users_count", "3"),
   ("paid_users_description", "")]

def fixturePostEmptyOptionals : List (String × String) :=
  [("organization-type", "20"), ("website", ""),
   ("description", "An open community"), ("expected_total_users", "50"),
   ("paid_users_count", "3"), ("paid_users_description", "")]

def grantFailSpec : FailSpec :=
  { row_save_fails := false
    realm_save_fails := false
    mark_pending_fails := false
    grant_fails := true }

def fixtureUpgradeUser : UpgradeUser :=
  { id := 11, realm_id := 7, realm_string_id := "zulip-org" }

def fixtureUpgradeParams : UpgradeParams :=
  { billing_modality := "charge_automatically"
    schedule := "monthly"
    signed_seat_count := "sig"
    salt := "salt"
    onboarding := false
    license_management := some "manual"
    licenses := some 10 }

def fixtureBadModalityParams : UpgradeParams :=
  { billing_modality := "bogus"
    schedule := "monthly"
    signed_seat_count := "sig"
    salt := "salt"
    onboarding := false
    license_management := none
    licenses := none }

/-! Theorems. -/

/-- Every message of the list occurs contiguously inside its
space-separated join. -/
theorem joinSpace_mem_substring :
    ∀ (l : List String) (m : String), m ∈ l →
      ∃ pre suf : List Char, pre ++ m.data ++ suf = (joinSpace l).data := by
  intro l
  induction l with
  | nil => intro m h; cases h
  | cons a rest ih =>
    intro m h
    cases rest with
    | nil =>
      rcases List.mem_cons.mp h with rfl | h'
      · exact ⟨[], [], by simp [joinSpace]⟩
      · cases h'
    | cons b t =>
      rcases List.mem_cons.mp h with rfl | h'
      · refine ⟨[], (" " ++ joinSpace (b :: t)).data, ?_⟩
        simp [joinSpace]
      · rcases ih m h' with ⟨pre, suf, hps⟩
        refine ⟨a.data ++ ' ' :: pre, suf, ?_⟩
        simp only [joinSpace, String.data_append]
        rw [← hps]
        simp [String.data_append]

/-- Claim C5: when the back-end raises a `BillingError`, the `upgrade` view
logs one warning entry carrying the full request context (user id, realm
id, realm identifier, modality, schedule, license management, licenses) and
re-raises the very same error, description and message unmodified. -/
theorem upgrade_billing_error_logged_and_reraised {α : Type}
    (user : UpgradeUser) (p : UpgradeParams) (settings_admin : String)
    (do_upgrade : UpgradeRequest → BackendOutcome α)
    (error_description message : String)
    (hbm : check_string_in VALID_BILLING_MODALITY_VALUES p.billing_modality = true)
    (hsch : check_string_in VALID_BILLING_SCHEDULE_VALUES p.schedule = true)
    (hlm : licenseManagementInvalid p.license_management = false)
    (hb : do_upgrade (mkUpgradeRequest p) = .billingError error_description message) :
    upgrade user p settings_admin do_upgrade =
      (.billingError error_description message,
       [.warning error_description user.id user.realm_id user.realm_string_id
          p.billing_modality p.schedule p.license_management p.licenses]) := by
  simp [upgrade, hbm, hsch, hlm, hb]

/-- Claim C5 witness: a concrete run in which the back-end rejects the
upgrade with a `BillingError`. -/
theorem upgrade_billing_error_logged_and_reraised_witness :
    upgrade fixtureUpgradeUser fixtureUpgradeParams "admin@example.com"
        (fun _ => (BackendOutcome.billingError "insufficient licenses"
          "You must purchase licenses for all active users in your organization (minimum 30)." : BackendOutcome Nat)) =
      (.billingError "insufficient licenses"
         "You must purchase licenses for all active users in your organization (minimum 30).",
       [.warning "insufficient licenses" fixtureUpgradeUser.id
          fixtureUpgradeUser.realm_id fixtureUpgradeUser.realm_string_id
          fixtureUpgradeParams.billing_modality fixtureUpgradeParams.schedule
          fixtureUpgradeParams.license_management fixtureUpgradeParams.licenses]) :=
  upgrade_billing_error_logged_and_reraised fixtureUpgradeUser
    fixtureUpgradeParams "admin@example.com" _ _ _ (by decide) (by decide)
    (by decide) rfl

/-- Claim C4: when the back-end raises anything that is not a
`BillingError`, the `upgrade` view logs the failure with a trace and raises
a `BillingError` whose internal description is the fixed string "uncaught
exception during upgrade" and whose user-facing message is the fixed
contact-support template; both are constants, so the original failure
detail never reaches the client. -/
theorem upgrade_unexpected_failure_converted {α : Type}
    (user : UpgradeUser) (p : UpgradeParams) (settings_admin : String)
    (do_upgrade : UpgradeRequest → BackendOutcome α) (detail : String)
    (hbm : check_string_in VALID_BILLING_MODALITY_VALUES p.billing_modality = true)
    (hsch : check_string_in VALID_BILLING_SCHEDULE_VALUES p.schedule = true)
    (hlm : licenseManagementInvalid p.license_management = false)
    (hb : do_upgrade (mkUpgradeRequest p) = .otherException detail) :
    upgrade user p settings_admin do_upgrade =
      (.billingError "uncaught exception during upgrade"
         (CONTACT_SUPPORT settings_admin),
       [.exceptionWithTrace "Uncaught exception in billing:" detail true]) := by
  simp [upgrade, hbm, hsch, hlm, hb]

/-- Claim C4 witness: a concrete run in which the back-end raises an
unclassified exception; the client-visible error is the fixed
contact-support one. -/
theorem upgrade_unexpected_failure_converted_witness :
    upgrade fixtureUpgradeUser fixtureUpgradeParams "admin@example.com"
        (fun _ => (BackendOutcome.otherException "KeyError at line 3" : BackendOutcome Nat)) =
      (.billingError "uncaught exception during upgrade"
         (CONTACT_SUPPORT "admin@example.com"),
       [.exceptionWithTrace "Uncaught exception in billing:"
          "KeyError at line 3" true]) :=
  upgrade_unexpected_failure_converted fixtureUpgradeUser fixtureUpgradeParams
    "admin@example.com" _ _ (by decide) (by decide) (by decide) rfl

/-- Claim C7: an upgrade request whose `billing_modality` or `schedule`
lies outside its fixed enumeration is rejected with a parameter-validation
error, nothing is logged, and the outcome does not depend on the billing
back-end at all (the back-end is never invoked, no upgrade intent is
constructed). -/
theorem upgrade_invalid_enum_rejected {α : Type}
    (user : UpgradeUser) (p : UpgradeParams) (settings_admin : String)
    (do_upgrade do_upgrade' : UpgradeRequest → BackendOutcome α)
    (h : check_string_in VALID_BILLING_MODALITY_VALUES p.billing_modality = false ∨
         check_string_in VALID_BILLING_SCHEDULE_VALUES p.schedule = false) :
    (∃ var_name, upgrade user p settings_admin do_upgrade =
       (.paramValidationError var_name, [])) ∧
    upgrade user p settings_admin do_upgrade =
      upgrade user p settings_admin do_upgrade' := by
  by_cases hbm : check_string_in VALID_BILLING_MODALITY_VALUES p.billing_modality
  · have hsch : check_string_in VALID_BILLING_SCHEDULE_VALUES p.schedule = false := by
      rcases h with h | h
      · rw [hbm] at h; cases h
      · exact h
    exact ⟨⟨"schedule", by simp [upgrade, hbm, hsch]⟩, by simp [upgrade, hbm, hsch]⟩
  · rw [Bool.not_eq_true] at hbm
    exact ⟨⟨"billing_modality", by simp [upgrade, hbm]⟩, by simp [upgrade, hbm]⟩

/-- Claim C7 witness: a concrete invalid `billing_modality` is rejected
identically under two different back-ends. -/
theorem upgrade_invalid_enum_rejected_witness :
    (∃ var_name, upgrade fixtureUpgradeUser fixtureBadModalityParams
        "admin@example.com" (fun _ => BackendOutcome.success (0 : Nat)) =
        (.paramValidationError var_name, [])) ∧
    upgrade fixtureUpgradeUser fixtureBadModalityParams "admin@example.com"
        (fun _ => BackendOutcome.success (0 : Nat)) =
      upgrade fixtureUpgradeUser fixtureBadModalityParams "admin@example.com"
        (fun _ => BackendOutcome.otherException "boom") :=
  upgrade_invalid_enum_rejected fixtureUpgradeUser fixtureBadModalityParams
    "admin@example.com" _ _ (Or.inl (by decide))

/-- Claim C6 counterexample: the claim's reading of the `initial_upgrade`
branch logic disagrees with the code on two concrete inputs. A guest user
with billing enabled receives a 404 where the claim prescribes rendering
the upgrade page; and with no customer record, onboarding set, no pending
sponsorship and a non-free plan the code renders the upgrade page where the
claim prescribes a redirect to the billing home page. -/
theorem initial_upgrade_claim_counterexample :
    (initial_upgrade
        { billing_enabled := true, is_guest := true, customer := none,
          plan_type_is_standard_free := false, onboarding := false } = .notFound ∧
     initial_upgrade_claimed
        { billing_enabled := true, is_guest := true, customer := none,
          plan_type_is_standard_free := false, onboarding := false } = .renderUpgradePage) ∧
    (initial_upgrade
        { billing_enabled := true, is_guest := false, customer := none,
          plan_type_is_standard_free := false, onboarding := true } = .renderUpgradePage ∧
     initial_upgrade_claimed
        { billing_enabled := true, is_guest := false, customer := none,
          plan_type_is_standard_free := false, onboarding := true } = .redirectBillingHome true) := by
  decide

/-- Claim C6 (amended): `initial_upgrade` returns 404 exactly when billing
is globally disabled or the user is a guest; otherwise it redirects to the
sponsorship-request page exactly when sponsorship is pending or the realm
is on the free-standard plan; otherwise it redirects to the billing home
page exactly when a customer record exists and an active plan exists or
the onboarding flag is set (propagating the onboarding flag into the
redirect); otherwise it renders the upgrade page. -/
theorem initial_upgrade_branches :
    ∀ i : InitialUpgradeInput,
      (initial_upgrade i = .notFound ↔
        (!i.billing_enabled || i.is_guest) = true) ∧
      (initial_upgrade i = .redirectSponsorshipRequest ↔
        ((!i.billing_enabled || i.is_guest) = false ∧
         (customerSponsorshipPending i.customer || i.plan_type_is_standard_free) = true)) ∧
      (initial_upgrade i = .redirectBillingHome i.onboarding ↔
        ((!i.billing_enabled || i.is_guest) = false ∧
         (customerSponsorshipPending i.customer || i.plan_type_is_standard_free) = false ∧
         (i.customer.isSome && (customerHasCurrentPlan i.customer || i.onboarding)) = true)) ∧
      (initial_upgrade i = .renderUpgradePage ↔
        ((!i.billing_enabled || i.is_guest) = false ∧
         (customerSponsorshipPending i.customer || i.plan_type_is_standard_free) = false ∧
         (i.customer.isSome && (customerHasCurrentPlan i.customer || i.onboarding)) = false)) := by
  decide

/-- A sponsorship run whose parameter extraction fails leaves the state
untouched and reports the missing variable. -/
theorem sponsorship_missing_param_run (fs : FailSpec) (realm : Realm)
    (user : SponsorshipUser) (post : List (String × String)) (st : BillingState)
    (var_name : String)
    (hE : extractSponsorshipParams post = .error var_name) :
    sponsorship fs realm user post st = (.missingParam var_name, st) := by
  unfold sponsorship
  rw [hE]

/-- A sponsorship run with an invalid form raises the combined-message
billing error and leaves the state untouched. -/
theorem sponsorship_invalid_form_run (fs : FailSpec) (realm : Realm)
    (user : SponsorshipUser) (post : List (String × String)) (st : BillingState)
    (ot w d e p pd : String)
    (hE : extractSponsorshipParams post = .ok (ot, w, d, e, p, pd))
    (hv : (formErrorMessages
      { website := w, organization_type := ot, description := d,
        expected_total_users := e, paid_users_count := p,
        paid_users_description := pd }).isEmpty = false) :
    sponsorship fs realm user post st =
      (.billingError "Form validation error"
        (joinSpace (formErrorMessages
          { website := w, organization_type := ot, description := d,
            expected_total_users := e, paid_users_count := p,
            paid_users_description := pd })), st) := by
  unfold sponsorship
  rw [hE]
  dsimp only
  simp [hv]

/-- A sponsorship run with a valid form whose atomic block raises leaves
the state untouched and lets the exception propagate. -/
theorem sponsorship_failed_run (fs : FailSpec) (realm : Realm)
    (user : SponsorshipUser) (post : List (String × String)) (st : BillingState)
    (ot w d e p pd : String)
    (hE : extractSponsorshipParams post = .ok (ot, w, d, e, p, pd))
    (hv : (formErrorMessages
      { website := w, organization_type := ot, description := d,
        expected_total_users := e, paid_users_count := p,
        paid_users_description := pd }).isEmpty = true)
    (hT : sponsorshipTransactionBody fs realm user
      (formCleanedData
        { website := w, organization_type := ot, description := d,
          expected_total_users := e, paid_users_count := p,
          paid_users_description := pd }) st = .error ()) :
    sponsorship fs realm user post st = (.internalException, st) := by
  unfold sponsorship
  rw [hE]
  dsimp only
  simp [hv, hT]

/-- A sponsorship run with a valid form whose atomic block commits returns
the JSON success envelope and appends exactly the notification email built
from the raw submitted values and the resolved display name. -/
theorem sponsorship_valid_run (fs : FailSpec) (realm : Realm)
    (user : SponsorshipUser) (post : List (String × String)) (st : BillingState)
    (ot w d e p pd : String) (st' : BillingState) (n : String)
    (hE : extractSponsorshipParams post = .ok (ot, w, d, e, p, pd))
    (hv : (formErrorMessages
      { website := w, organization_type := ot, description := d,
        expected_total_users := e, paid_users_count := p,
        paid_users_description := pd }).isEmpty = true)
    (hT : sponsorshipTransactionBody fs realm user
      (formCleanedData
        { website := w, organization_type := ot, description := d,
          expected_total_users := e, paid_users_count := p,
          paid_users_description := pd }) st = .ok (st', n)) :
    sponsorship fs realm user post st =
      (.jsonSuccess,
       { st' with emails := st'.emails ++
          [{ template := "zerver/emails/sponsorship_request"
             to_emails := [FromAddress_SUPPORT]
             from_name := "Zulip sponsorship"
             from_address := FromAddress_tokenized_no_reply
             reply_to_email := user.delivery_email
             context :=
               { requested_by := user.full_name
                 user_role := user.role_name
                 string_id := realm.string_id
                 support_url := get_support_url realm.string_id
                 organization_type := n
                 website := w
                 description := d
                 expected_total_users := e
                 paid_users_count := p
                 paid_users_description := pd } }] }) := by
  unfold sponsorship
  rw [hE]
  dsimp only
  simp [hv, hT]

/-- The atomic block never touches the email outbox: whatever state it
commits carries the entry state's emails. -/
theorem sponsorshipTransactionBody_emails (fs : FailSpec) (realm : Realm)
    (user : SponsorshipUser) (cleaned : SponsorshipCleanedData)
    (st st' : BillingState) (n : String)
    (h : sponsorshipTransactionBody fs realm user cleaned st = .ok (st', n)) :
    st'.emails = st.emails := by
  unfold sponsorshipTransactionBody at h
  dsimp only at h
  repeat' split at h
  all_goals simp_all
  all_goals obtain ⟨h1, h2⟩ := h
  all_goals rw [← h1]

/-- Evaluation of the atomic block with no injected failure when the
submitted organization type equals the realm's current one: the row is
created, the pending flag and the capability are set, and the realm row is
not written. -/
theorem sponsorshipTransactionBody_ok_same (realm : Realm)
    (user : SponsorshipUser) (cleaned : SponsorshipCleanedData)
    (st : BillingState)
    (hty : st.realm_org_type = cleaned.organization_type) :
    sponsorshipTransactionBody noFailure realm user cleaned st =
      .ok ({ st with
        sponsorship_rows := st.sponsorship_rows ++
          [{ realm_string_id := realm.string_id
             requested_by := user.full_name
             org_website := cleaned.website
             org_description := cleaned.description
             org_type := cleaned.organization_type
             expected_total_users := cleaned.expected_total_users
             paid_users_count := cleaned.paid_users_count
             paid_users_description := cleaned.paid_users_description }]
        sponsorship_pending := true
        user_is_billing_admin := true },
       get_org_type_display_name cleaned.organization_type) := by
  unfold sponsorshipTransactionBody
  simp [noFailure, hty]

/-- Evaluation of the atomic block with no injected failure when the
submitted organization type differs from the realm's current one: in
addition, the realm's `org_type` is set and exactly one targeted
`org_type` write is recorded. -/
theorem sponsorshipTransactionBody_ok_diff (realm : Realm)
    (user : SponsorshipUser) (cleaned : SponsorshipCleanedData)
    (st : BillingState)
    (hty : st.realm_org_type ≠ cleaned.organization_type) :
    sponsorshipTransactionBody noFailure realm user cleaned st =
      .ok ({ st with
        sponsorship_rows := st.sponsorship_rows ++
          [{ realm_string_id := realm.string_id
             requested_by := user.full_name
             org_website := cleaned.website
             org_description := cleaned.description
             org_type := cleaned.organization_type
             expected_total_users := cleaned.expected_total_users
             paid_users_count := cleaned.paid_users_count
             paid_users_description := cleaned.paid_users_description }]
        realm_org_type := cleaned.organization_type
        realm_org_type_saves := st.realm_org_type_saves + 1
        sponsorship_pending := true
        user_is_billing_admin := true },
       get_org_type_display_name cleaned.organization_type) := by
  unfold sponsorshipTransactionBody
  simp [noFailure, hty]

/-- A sponsorship run either succeeds or leaves the state exactly as it
was. -/
theorem sponsorship_success_or_unchanged (fs : FailSpec) (realm : Realm)
    (user : SponsorshipUser) (post : List (String × String)) (st : BillingState) :
    (sponsorship fs realm user post st).1 = .jsonSuccess ∨
    (sponsorship fs realm user post st).2 = st := by
  cases hE : extractSponsorshipParams post with
  | error v =>
    rw [sponsorship_missing_param_run fs realm user post st v hE]
    exact Or.inr rfl
  | ok tup =>
    obtain ⟨ot, w, d, e, p, pd⟩ := tup
    cases hv : (formErrorMessages
      { website := w, organization_type := ot, description := d,
        expected_total_users := e, paid_users_count := p,
        paid_users_description := pd }).isEmpty with
    | false =>
      rw [sponsorship_invalid_form_run fs realm user post st ot w d e p pd hE hv]
      exact Or.inr rfl
    | true =>
      cases hT : sponsorshipTransactionBody fs realm user
        (formCleanedData
          { website := w, organization_type := ot, description := d,
            expected_total_users := e, paid_users_count := p,
            paid_users_description := pd }) st with
      | error u =>
        cases u
        rw [sponsorship_failed_run fs realm user post st ot w d e p pd hE hv hT]
        exact Or.inr rfl
      | ok pr =>
        obtain ⟨st', n⟩ := pr
        rw [sponsorship_valid_run fs realm user post st ot w d e p pd st' n hE hv hT]
        exact Or.inl rfl

/-- Claim C1: if any step inside the atomic block of the sponsorship
submission fails (the exception propagating out of the call), then none of
the block's writes persist after the call returns: the sponsorship-request
rows, the realm's `org_type` (and its targeted-write marker), the
customer's pending flag and the requester's billing-administrator
capability are all exactly as before the call. -/
theorem sponsorship_atomic_rollback (fs : FailSpec) (realm : Realm)
    (user : SponsorshipUser) (post : List (String × String)) (st : BillingState)
    (h : (sponsorship fs realm user post st).1 = .internalException) :
    (sponsorship fs realm user post st).2.sponsorship_rows = st.sponsorship_rows ∧
    (sponsorship fs realm user post st).2.realm_org_type = st.realm_org_type ∧
    (sponsorship fs realm user post st).2.realm_org_type_saves = st.realm_org_type_saves ∧
    (sponsorship fs realm user post st).2.sponsorship_pending = st.sponsorship_pending ∧
    (sponsorship fs realm user post st).2.user_is_billing_admin = st.user_is_billing_admin := by
  have h2 : (sponsorship fs realm user post st).2 = st := by
    rcases sponsorship_success_or_unchanged fs realm user post st with hs | h2
    · rw [h] at hs
      cases hs
    · exact h2
  rw [h2]
  exact ⟨rfl, rfl, rfl, rfl, rfl⟩

/-- Claim C1 witness: a concrete valid submission in which the
permission-grant step is made to fail; the exception propagates and every
tracked write is rolled back. -/
theorem sponsorship_atomic_rollback_witness :
    (sponsorship grantFailSpec fixtureRealm fixtureUser fixturePostValid fixtureState).2.sponsorship_rows = fixtureState.sponsorship_rows ∧
    (sponsorship grantFailSpec fixtureRealm fixtureUser fixturePostValid fixtureState).2.realm_org_type = fixtureState.realm_org_type ∧
    (sponsorship grantFailSpec fixtureRealm fixtureUser fixturePostValid fixtureState).2.realm_org_type_saves = fixtureState.realm_org_type_saves ∧
    (sponsorship grantFailSpec fixtureRealm fixtureUser fixturePostValid fixtureState).2.sponsorship_pending = fixtureState.sponsorship_pending ∧
    (sponsorship grantFailSpec fixtureRealm fixtureUser fixturePostValid fixtureState).2.user_is_billing_admin = fixtureState.user_is_billing_admin :=
  sponsorship_atomic_rollback grantFailSpec fixtureRealm fixtureUser
    fixturePostValid fixtureState (by decide)

/-- Claim C2: a sponsorship submission whose form is invalid performs no
write at all and fails with one combined `BillingError` labelled "Form
validation error" whose message is the space-joined concatenation of every
per-field complaint; each complaint of each invalid field occurs verbatim
inside that one message. -/
theorem sponsorship_invalid_form_aggregates (fs : FailSpec) (realm : Realm)
    (user : SponsorshipUser) (post : List (String × String)) (st : BillingState)
    (ot w d e p pd : String)
    (hE : extractSponsorshipParams post = .ok (ot, w, d, e, p, pd))
    (hv : (formErrorMessages
      { website := w, organization_type := ot, description := d,
        expected_total_users := e, paid_users_count := p,
        paid_users_description := pd }).isEmpty = false) :
    sponsorship fs realm user post st =
      (.billingError "Form validation error"
        (joinSpace (formErrorMessages
          { website := w, organization_type := ot, description := d,
            expected_total_users := e, paid_users_count := p,
            paid_users_description := pd })), st) ∧
    ∀ m ∈ formErrorMessages
      { website := w, organization_type := ot, description := d,
        expected_total_users := e, paid_users_count := p,
        paid_users_description := pd },
      ∃ pre suf : List Char,
        pre ++ m.data ++ suf =
          (joinSpace (formErrorMessages
            { website := w, organization_type := ot, description := d,
              expected_total_users := e, paid_users_count := p,
              paid_users_description := pd })).data := by
  refine ⟨sponsorship_invalid_form_run fs realm user post st ot w d e p pd hE hv, ?_⟩
  intro m hm
  exact joinSpace_mem_substring _ m hm

/-- Claim C2 witness: a concrete submission with two invalid fields (a
non-integer organization type and a whitespace-only description); the one
combined message carries both complaints and the state is untouched. -/
theorem sponsorship_invalid_form_aggregates_witness :
    sponsorship noFailure fixtureRealm fixtureUser fixturePostInvalid fixtureState =
      (.billingError "Form validation error"
        (joinSpace (formErrorMessages
          { website := "", organization_type := "abc", description := "   ",
            expected_total_users := "50", paid_users_count := "3",
            paid_users_description := "" })), fixtureState) ∧
    ∀ m ∈ formErrorMessages
      { website := "", organization_type := "abc", description := "   ",
        expected_total_users := "50", paid_users_count := "3",
        paid_users_description := "" },
      ∃ pre suf : List Char,
        pre ++ m.data ++ suf =
          (joinSpace (formErrorMessages
            { website := "", organization_type := "abc", description := "   ",
              expected_total_users := "50", paid_users_count := "3",
              paid_users_description := "" })).data :=
  sponsorship_invalid_form_aggregates noFailure fixtureRealm fixtureUser
    fixturePostInvalid fixtureState "abc" "" "   " "50" "3" ""
    (by rfl) (by decide)

/-- Claim C3: on a valid sponsorship submission (no step failing), if the
submitted organization type equals the realm's current `org_type` then that
field is not written at all (value and targeted-write marker unchanged); if
it differs, the realm ends with the submitted type and exactly one more
targeted `org_type` write; in both cases no full-record realm write ever
happens. -/
theorem sponsorship_org_type_targeted_write (realm : Realm)
    (user : SponsorshipUser) (post : List (String × String)) (st : BillingState)
    (ot w d e p pd : String)
    (hE : extractSponsorshipParams post = .ok (ot, w, d, e, p, pd))
    (hv : (formErrorMessages
      { website := w, organization_type := ot, description := d,
        expected_total_users := e, paid_users_count := p,
        paid_users_description := pd }).isEmpty = true) :
    (st.realm_org_type = (formCleanedData
        { website := w, organization_type := ot, description := d,
          expected_total_users := e, paid_users_count := p,
          paid_users_description := pd }).organization_type →
      (sponsorship noFailure realm user post st).2.realm_org_type = st.realm_org_type ∧
      (sponsorship noFailure realm user post st).2.realm_org_type_saves = st.realm_org_type_saves) ∧
    (st.realm_org_type ≠ (formCleanedData
        { website := w, organization_type := ot, description := d,
          expected_total_users := e, paid_users_count := p,
          paid_users_description := pd }).organization_type →
      (sponsorship noFailure realm user post st).2.realm_org_type =
        (formCleanedData
          { website := w, organization_type := ot, description := d,
            expected_total_users := e, paid_users_count := p,
            paid_users_description := pd }).organization_type ∧
      (sponsorship noFailure realm user post st).2.realm_org_type_saves = st.realm_org_type_saves + 1) ∧
    (sponsorship noFailure realm user post st).2.realm_full_saves = st.realm_full_saves := by
  by_cases hty : st.realm_org_type = (formCleanedData
      { website := w, organization_type := ot, description := d,
        expected_total_users := e, paid_users_count := p,
        paid_users_description := pd }).organization_type
  · have hrun := sponsorship_valid_run noFailure realm user post st ot w d e p pd _ _ hE hv
      (sponsorshipTransactionBody_ok_same realm user _ st hty)
    refine ⟨fun _ => ?_, fun hne => absurd hty hne, ?_⟩
    · rw [hrun]
      exact ⟨rfl, rfl⟩
    · rw [hrun]
  · have hrun := sponsorship_valid_run noFailure realm user post st ot w d e p pd _ _ hE hv
      (sponsorshipTransactionBody_ok_diff realm user _ st hty)
    refine ⟨fun heq => absurd heq hty, fun _ => ?_, ?_⟩
    · rw [hrun]
      exact ⟨rfl, rfl⟩
    · rw [hrun]

/-- Claim C3 witness: a concrete valid submission whose organization type
equals the realm's current one; the `org_type` value and its targeted-write
marker are unchanged. -/
theorem sponsorship_org_type_targeted_write_witness :
    (sponsorship noFailure fixtureRealm fixtureUser fixturePostSameOrgType fixtureState).2.realm_org_type = fixtureState.realm_org_type ∧
    (sponsorship noFailure fixtureRealm fixtureUser fixturePostSameOrgType fixtureState).2.realm_org_type_saves = fixtureState.realm_org_type_saves :=
  (sponsorship_org_type_targeted_write fixtureRealm fixtureUser
      fixturePostSameOrgType fixtureState "35" "https://example.org"
      "An open community" "50" "3" "" (by rfl) (by decide)).1 (by decide)

/-- Claim C8 counterexample: a submission that omits the `website`
parameter entirely, with every required field valid, does not succeed: the
decorator layer rejects it with a missing-parameter error before the form
is ever consulted. -/
theorem sponsorship_omitted_field_rejected :
    sponsorship noFailure fixtureRealm fixtureUser fixturePostMissingWebsite fixtureState =
      (.missingParam "website", fixtureState) ∧
    (sponsorship noFailure fixtureRealm fixtureUser fixturePostMissingWebsite fixtureState).1 ≠ .jsonSuccess := by
  decide

/-- Claim C8 (amended): `website` and `paid_users_description` are optional
at the form level only: a submission that supplies them as empty strings,
with all required fields valid, succeeds; but both parameters must still be
present in the request, since omitting one entirely fails with a
missing-parameter error. -/
theorem sponsorship_blank_optional_fields_succeed (realm : Realm)
    (user : SponsorshipUser) (post : List (String × String)) (st : BillingState)
    (ot d e p : String)
    (hE : extractSponsorshipParams post = .ok (ot, "", d, e, p, ""))
    (hot : integerFieldErrors ot = [])
    (hd : requiredCharFieldErrors d = [])
    (he : requiredCharFieldErrors e = [])
    (hp : requiredCharFieldErrors p = []) :
    (sponsorship noFailure realm user post st).1 = .jsonSuccess := by
  have hv : (formErrorMessages
      { website := "", organization_type := ot, description := d,
        expected_total_users := e, paid_users_count := p,
        paid_users_description := "" }).isEmpty = true := by
    simp [formErrorMessages, hot, hd, he, hp, websiteFieldErrors, pyStrip]
  by_cases hty : st.realm_org_type = (formCleanedData
      { website := "", organization_type := ot, description := d,
        expected_total_users := e, paid_users_count := p,
        paid_users_description := "" }).organization_type
  · rw [sponsorship_valid_run noFailure realm user post st ot "" d e p "" _ _ hE hv
      (sponsorshipTransactionBody_ok_same realm user _ st hty)]
  · rw [sponsorship_valid_run noFailure realm user post st ot "" d e p "" _ _ hE hv
      (sponsorshipTransactionBody_ok_diff realm user _ st hty)]

/-- Claim C8 witness: a concrete submission carrying `website` and
`paid_users_description` as empty strings succeeds. -/
theorem sponsorship_blank_optional_fields_succeed_witness :
    (sponsorship noFailure fixtureRealm fixtureUser fixturePostEmptyOptionals fixtureState).1 = .jsonSuccess :=
  sponsorship_blank_optional_fields_succeed fixtureRealm fixtureUser
    fixturePostEmptyOptionals fixtureState "20" "An open community" "50" "3"
    (by rfl) (by decide) (by decide) (by decide) (by decide)

/-- Claim C9: on a valid sponsorship submission, when the atomic block
commits, exactly one notification email is appended to the outbox,
addressed to the support address with the requester's delivery address as
reply-to; and when the atomic block fails, no email is sent at all — the
send happens strictly outside the atomic boundary. -/
theorem sponsorship_email_outside_transaction (fs : FailSpec) (realm : Realm)
    (user : SponsorshipUser) (post : List (String × String)) (st : BillingState)
    (ot w d e p pd : String)
    (hE : extractSponsorshipParams post = .ok (ot, w, d, e, p, pd))
    (hv : (formErrorMessages
      { website := w, organization_type := ot, description := d,
        expected_total_users := e, paid_users_count := p,
        paid_users_description := pd }).isEmpty = true) :
    ((sponsorship fs realm user post st).1 = .jsonSuccess →
      ∃ em : EmailMessage,
        (sponsorship fs realm user post st).2.emails = st.emails ++ [em] ∧
        em.template = "zerver/emails/sponsorship_request" ∧
        em.to_emails = [FromAddress_SUPPORT] ∧
        em.reply_to_email = user.delivery_email) ∧
    ((sponsorship fs realm user post st).1 = .internalException →
      (sponsorship fs realm user post st).2.emails = st.emails) := by
  cases hT : sponsorshipTransactionBody fs realm user
    (formCleanedData
      { website := w, organization_type := ot, description := d,
        expected_total_users := e, paid_users_count := p,
        paid_users_description := pd }) st with
  | error u =>
    cases u
    have hrun := sponsorship_failed_run fs realm user post st ot w d e p pd hE hv hT
    constructor
    · intro hs
      rw [hrun] at hs
      cases hs
    · intro _
      rw [hrun]
  | ok pr =>
    obtain ⟨st', n⟩ := pr
    have hrun := sponsorship_valid_run fs realm user post st ot w d e p pd st' n hE hv hT
    have hem := sponsorshipTransactionBody_emails fs realm user _ st st' n hT
    constructor
    · intro _
      refine ⟨{ template := "zerver/emails/sponsorship_request"
                to_emails := [FromAddress_SUPPORT]
                from_name := "Zulip sponsorship"
                from_address := FromAddress_tokenized_no_reply
                reply_to_email := user.delivery_email
                context :=
                  { requested_by := user.full_name
                    user_role := user.role_name
                    string_id := realm.string_id
                    support_url := get_support_url realm.string_id
                    organization_type := n
                    website := w
                    description := d
                    expected_total_users := e
                    paid_users_count := p
                    paid_users_description := pd } }, ?_, rfl, rfl, rfl⟩
      rw [hrun]
      dsimp only
      rw [hem]
    · intro hexc
      rw [hrun] at hexc
      cases hexc

/-- Claim C9 witness: a concrete successful submission appends exactly one
support-addressed, requester-reply-to email. -/
theorem sponsorship_email_outside_transaction_witness :
    ∃ em : EmailMessage,
      (sponsorship noFailure fixtureRealm fixtureUser fixturePostValid fixtureState).2.emails =
        fixtureState.emails ++ [em] ∧
      em.template = "zerver/emails/sponsorship_request" ∧
      em.to_emails = [FromAddress_SUPPORT] ∧
      em.reply_to_email = fixtureUser.delivery_email :=
  (sponsorship_email_outside_transaction noFailure fixtureRealm fixtureUser
      fixturePostValid fixtureState "20" "https://example.org"
      " An open community " "50" "3" "" (by rfl) (by decide)).1 (by decide)

/-- Claim C10: on a valid submission with no step failing, the persisted
sponsorship row stores the form-cleaned field values (scheme-normalised
website, stripped text, parsed integer type), while the notification
email's context carries the raw submitted values exactly as received. -/
theorem sponsorship_row_cleaned_email_raw (realm : Realm)
    (user : SponsorshipUser) (post : List (String × String)) (st : BillingState)
    (ot w d e p pd : String)
    (hE : extractSponsorshipParams post = .ok (ot, w, d, e, p, pd))
    (hv : (formErrorMessages
      { website := w, organization_type := ot, description := d,
        expected_total_users := e, paid_users_count := p,
        paid_users_description := pd }).isEmpty = true) :
    (sponsorship noFailure realm user post st).2.sponsorship_rows =
      st.sponsorship_rows ++
        [{ realm_string_id := realm.string_id
           requested_by := user.full_name
           org_website := websiteCleaned w
           org_description := pyStrip d
           org_type := (formCleanedData
             { website := w, organization_type := ot, description := d,
               expected_total_users := e, paid_users_count := p,
               paid_users_description := pd }).organization_type
           expected_total_users := pyStrip e
           paid_users_count := pyStrip p
           paid_users_description := pyStrip pd }] ∧
    (sponsorship noFailure realm user post st).2.emails =
      st.emails ++
        [{ template := "zerver/emails/sponsorship_request"
           to_emails := [FromAddress_SUPPORT]
           from_name := "Zulip sponsorship"
           from_address := FromAddress_tokenized_no_reply
           reply_to_email := user.delivery_email
           context :=
             { requested_by := user.full_name
               user_role := user.role_name
               string_id := realm.string_id
               support_url := get_support_url realm.string_id
               organization_type := get_org_type_display_name
                 ((formCleanedData
                   { website := w, organization_type := ot, description := d,
                     expected_total_users := e, paid_users_count := p,
                     paid_users_description := pd }).organization_type)
               website := w
               description := d
               expected_total_users := e
               paid_users_count := p
               paid_users_description := pd } }] := by
  by_cases hty : st.realm_org_type = (formCleanedData
      { website := w, organization_type := ot, description := d,
        expected_total_users := e, paid_users_count := p,
        paid_users_description := pd }).organization_type
  · rw [sponsorship_valid_run noFailure realm user post st ot w d e p pd _ _ hE hv
      (sponsorshipTransactionBody_ok_same realm user _ st hty)]
    exact ⟨rfl, rfl⟩
  · rw [sponsorship_valid_run noFailure realm user post st ot w d e p pd _ _ hE hv
      (sponsorshipTransactionBody_ok_diff realm user _ st hty)]
    exact ⟨rfl, rfl⟩

/-- Claim C10 witness: a concrete submission whose description carries
surrounding whitespace; the row stores the stripped text while the email
context keeps the raw text. -/
theorem sponsorship_row_cleaned_email_raw_witness :
    (sponsorship noFailure fixtureRealm fixtureUser fixturePostValid fixtureState).2.sponsorship_rows =
      fixtureState.sponsorship_rows ++
        [{ realm_string_id := fixtureRealm.string_id
           requested_by := fixtureUser.full_name
           org_website := websiteCleaned "https://example.org"
           org_description := pyStrip " An open community "
           org_type := (formCleanedData
             { website := "https://example.org", organization_type := "20",
               description := " An open community ",
               expected_total_users := "50", paid_users_count := "3",
               paid_users_description := "" }).organization_type
           expected_total_users := pyStrip "50"
           paid_users_count := pyStrip "3"
           paid_users_description := pyStrip "" }] ∧
    (sponsorship noFailure fixtureRealm fixtureUser fixturePostValid fixtureState).2.emails =
      fixtureState.emails ++
        [{ template := "zerver/emails/sponsorship_request"
           to_emails := [FromAddress_SUPPORT]
           from_name := "Zulip sponsorship"
           from_address := FromAddress_tokenized_no_reply
           reply_to_email := fixtureUser.delivery_email
           context :=
             { requested_by := fixtureUser.full_name
               user_role := fixtureUser.role_name
               string_id := fixtureRealm.string_id
               support_url := get_support_url fixtureRealm.string_id
               organization_type := get_org_type_display_name
                 ((formCleanedData
                   { website := "https://example.org", organization_type := "20",
                     description := " An open community ",
                     expected_total_users := "50", paid_users_count := "3",
                     paid_users_description := "" }).organization_type)
               website := "https://example.org"
               description := " An open community "
               expected_total_users := "50"
               paid_users_count := "3"
               paid_users_description := "" } }] :=
  sponsorship_row_cleaned_email_raw fixtureRealm fixtureUser fixturePostValid
    fixtureState "20" "https://example.org" " An open community " "50" "3" ""
    (by rfl) (by decide)

end UpgradeViews
